import Mathlib

/-!
Verification of the pluto tenant-provisioning service.

This file gives a shallow embedding of the parts of the source relevant to
the frozen claims:

* `src/services/changeset.ts` — `ChangeSetService.applyChangeSet`
  (the 428/DVU retry loop and the post-apply merge-status polling loop);
* `src/services/token-extractor.ts` — `TokenExtractor.extractTokenWithPolling`;
* `src/services/deployment.ts` — `DeploymentService.deployTenant`
  (the step pipeline, including the SI_API_TOKEN environment swap around the
  VPC template run);
* the DynamoDB recorder (`createTenantDeployment` /
  `updateTenantDeploymentStep`).

Time is discretized: control-plane calls are treated as instantaneous, so a
loop that sleeps `d` milliseconds between probes performs its `k`-th probe at
time `d * k`.  External collaborators are passed in as explicit outcome
functions (the probe at cycle `k` yields the value the real call would have
produced then).
-/

/-! ## ChangeSetService.applyChangeSet — apply retry loop (changeset.ts 97-131)

`forceApply` is modelled by a probe giving the outcome of the `k`-th attempt:
it either succeeds, fails with status 428 (DVU roots still present), or fails
with some other error (which the code re-throws to the outer catch).  The
loop runs while `elapsed < timeoutSeconds * 1000`; with instantaneous calls
the `k`-th attempt happens at `5 * k` seconds, so the loop guard is
`5 * k < T` and `remaining = T - 5 * k` seconds. -/

inductive ApplyOutcome where
  | ok
  | precond
  | err (msg : String)
deriving DecidableEq, Repr

/-- How the apply-retry `while` loop was left. -/
inductive ApplyExit where
  | applied (k : Nat)
  | softGiveUp (k : Nat)
  | hardError (k : Nat) (msg : String)
  | noAttempt
deriving DecidableEq, Repr

/-- The apply-retry loop of `applyChangeSet`, started at attempt index `k`.
Returns the list of attempt times (in seconds) together with how the loop
exited.  Mirrors changeset.ts lines 104-131: attempt; on 428 compute
`remaining`; break without sleeping when `remaining <= 5`; otherwise sleep
5 s and loop; any other error is re-thrown (hard). -/
def applyAttemptsFrom (probe : Nat → ApplyOutcome) (T : Nat) (k : Nat) :
    List Nat × ApplyExit :=
  if h : 5 * k < T then
    match probe k with
    | ApplyOutcome.ok => ([5 * k], ApplyExit.applied k)
    | ApplyOutcome.err m => ([5 * k], ApplyExit.hardError k m)
    | ApplyOutcome.precond =>
        if T - 5 * k ≤ 5 then ([5 * k], ApplyExit.softGiveUp k)
        else
          let rest := applyAttemptsFrom probe T (k + 1)
          (5 * k :: rest.1, rest.2)
  else ([], ApplyExit.noAttempt)
termination_by T - 5 * k
decreasing_by simp_wf; omega

/-! ## ChangeSetService.applyChangeSet — merge-status polling (changeset.ts 133-181)

After the apply loop, if `componentIds` is non-empty the code polls
`mergeStatus` every 2000 ms for up to 60000 ms.  A poll either throws (the
code warns and breaks) or yields the list of component ids that still have
actions in the merge status; the loop returns success as soon as none of the
monitored ids appears.  Whatever happens, `applyChangeSet` then returns
`{ success: true }`. -/

inductive MonitorExit where
  | drained (k : Nat)
  | statusErr (k : Nat)
  | timedOut
deriving DecidableEq, Repr

/-- The merge-status polling loop, started at poll index `k` (poll `k`
happens at `2000 * k` ms into the 60000 ms window). `probe k` is the list of
component ids that have actions in the merge status at that poll, or the
error thrown by the call. -/
def monitorFrom (probe : Nat → Except String (List String)) (ids : List String)
    (k : Nat) : MonitorExit :=
  if h : 2000 * k < 60000 then
    match probe k with
    | Except.error _ => MonitorExit.statusErr k
    | Except.ok acts =>
        if (acts.filter (fun x => ids.contains x)).isEmpty then
          MonitorExit.drained k
        else monitorFrom probe ids (k + 1)
  else MonitorExit.timedOut
termination_by 60000 - 2000 * k
decreasing_by simp_wf; omega

/-- Whether poll `j` would see at least one action of a monitored component
(the condition under which the loop keeps polling). -/
def pollRunning (probe : Nat → Except String (List String)) (ids : List String)
    (j : Nat) : Bool :=
  match probe j with
  | Except.ok acts => !(acts.filter (fun x => ids.contains x)).isEmpty
  | Except.error _ => false

structure ServiceResult where
  success : Bool
  error : Option String
deriving DecidableEq, Repr

/-- `ChangeSetService.applyChangeSet`: the apply retry loop followed by the
optional merge-status polling.  A hard apply error reaches the outer catch
and yields `{ success: false, error }`; every other path returns
`{ success: true }` (the merge-status polling never fails the call). -/
def applyChangeSet (applyProbe : Nat → ApplyOutcome) (timeoutSeconds : Nat)
    (componentIds : List String)
    (statusProbe : Nat → Except String (List String)) :
    ServiceResult × ApplyExit × Option MonitorExit :=
  match (applyAttemptsFrom applyProbe timeoutSeconds 0).2 with
  | ApplyExit.hardError k m => (⟨false, some m⟩, ApplyExit.hardError k m, none)
  | e =>
      if componentIds.isEmpty then (⟨true, none⟩, e, none)
      else (⟨true, none⟩, e, some (monitorFrom statusProbe componentIds 0))

/-! ## TokenExtractor (token-extractor.ts)

`extractToken` performs one HTTP fetch and classifies the response; the
polling wrapper only looks at the `success` flag and at whether the `error`
string contains the substring `"initialApiToken not found"` (the soft,
keep-polling case).  We embed results as the literal result record and the
substring test as a character-list scan (JS `String.prototype.includes`). -/

structure TokenExtractionResult where
  success : Bool
  token : Option String
  workspaceId : Option String
  expiresAt : Option String
  error : Option String
deriving DecidableEq, Repr

/-- `pat` is an initial segment of `l`. -/
def leadsWith : List Char → List Char → Bool
  | [], _ => true
  | _ :: _, [] => false
  | p :: ps, c :: cs => p = c && leadsWith ps cs

/-- `pat` occurs somewhere in `l` (JS `includes`). -/
def occursIn (pat : List Char) : List Char → Bool
  | [] => leadsWith pat []
  | c :: cs => leadsWith pat (c :: cs) || occursIn pat cs

def strContainsSub (s pat : String) : Bool :=
  occursIn pat.toList s.toList

def notFoundMsg : String := "initialApiToken not found"

/-- The hard-failure test of the polling loop (token-extractor.ts 101):
an error is present and does not contain the token-not-found marker. -/
def isHardFailure (r : TokenExtractionResult) : Bool :=
  match r.error with
  | some e => !(strContainsSub e notFoundMsg)
  | none => false

/-- A probe result on which the loop keeps polling: not a success and not a
hard failure. -/
def isSoftAbsent (r : TokenExtractionResult) : Bool :=
  !r.success && !(isHardFailure r)

/-- How `extractTokenWithPolling` was left, with the poll cycle at which it
stopped.  `timedOut k` means the `while` guard failed before cycle `k` ran
(`k` cycles were polled, all soft). -/
inductive ExtractExit where
  | found (k : Nat) (r : TokenExtractionResult)
  | hardFail (k : Nat) (r : TokenExtractionResult)
  | innerTimeout (k : Nat)
  | timedOut (k : Nat)
deriving DecidableEq, Repr

/-- The polling loop of `extractTokenWithPolling` (token-extractor.ts
91-124), started at cycle `i`; cycle `i` runs at `5000 * i` ms.  On a soft
absence the code computes `remaining = timeoutMs - elapsed` and returns a
timeout result when `remaining ≤ 0` (dead under instantaneous probes, kept
for fidelity), else sleeps 5000 ms and loops. -/
def extractExitFrom (probe : Nat → TokenExtractionResult) (timeoutMs : Nat)
    (i : Nat) : ExtractExit :=
  if h : 5000 * i < timeoutMs then
    if (probe i).success then ExtractExit.found i (probe i)
    else if isHardFailure (probe i) then ExtractExit.hardFail i (probe i)
    else if timeoutMs - 5000 * i ≤ 0 then ExtractExit.innerTimeout i
    else extractExitFrom probe timeoutMs (i + 1)
  else ExtractExit.timedOut i
termination_by timeoutMs - 5000 * i
decreasing_by simp_wf; omega

def timeoutReachedResult : TokenExtractionResult :=
  ⟨false, none, none, none, some "Timeout reached"⟩

/-- The result object the loop returns for each exit. -/
def extractResult : ExtractExit → TokenExtractionResult
  | ExtractExit.found _ r => r
  | ExtractExit.hardFail _ r => r
  | ExtractExit.innerTimeout k =>
      ⟨false, none, none, none,
        some ("Timeout waiting for initialApiToken after " ++
          toString (5000 * k) ++ "ms")⟩
  | ExtractExit.timedOut _ => timeoutReachedResult

/-- `TokenExtractor.extractTokenWithPolling`. -/
def extractTokenWithPolling (probe : Nat → TokenExtractionResult)
    (timeoutMs : Nat) : TokenExtractionResult :=
  extractResult (extractExitFrom probe timeoutMs 0)

/-! ## DynamoDB recorder (part_005: createTenantDeployment 480-504,
updateTenantDeploymentStep 506-554)

Only the fields the claims are about are kept: `status`, `currentStep`, the
appended `steps` list and the `error` field.  `updateTenantDeploymentStep`
appends the new step to `steps`, sets `currentStep` to the step name and
copies the step status into the record status; on a `failed` status it also
stores the message in `error`. -/

structure StepRec where
  step : String
  status : String
  message : String
deriving DecidableEq, Repr

structure TenantDeployment where
  status : String
  currentStep : String
  steps : List StepRec
  error : Option String
deriving DecidableEq, Repr

/-- `DynamoDBService.createTenantDeployment`: the initial record. -/
def createTenantDeployment : TenantDeployment :=
  { status := "started", currentStep := "initialize", steps := [], error := none }

/-- `DynamoDBService.updateTenantDeploymentStep`. -/
def updateTenantDeploymentStep (rec : TenantDeployment)
    (step status message : String) : TenantDeployment :=
  { status := status
    currentStep := step
    steps := rec.steps ++ [⟨step, status, message⟩]
    error := if status = "failed" then some message else rec.error }

/-- The record obtained from `rec` after a sequence of
`updateTenantDeploymentStep` calls. -/
def recordAfterOps (rec : TenantDeployment) (ops : List StepRec) :
    TenantDeployment :=
  ops.foldl (fun r p => updateTenantDeploymentStep r p.step p.status p.message) rec

/-! ## DeploymentService.deployTenant (deployment.ts 43-313)

The orchestrator is a straight-line pipeline; each collaborator call is an
input in `DeployEnv` (the value the real call would return for this run).
`updateProgress` pushes a progress entry and mirrors it into the DynamoDB
record, exactly as deployment.ts lines 48-57 do.

The catch-all at lines 309-312 is unreachable in this embedding: every
collaborator wraps its own errors into a result object, and the one call
that can throw (`runTemplate`) is handled inside its own step. -/

/-- JS template interpolation of a possibly-undefined value. -/
def optStr : Option String → String
  | some s => s
  | none => "undefined"

structure CSResult where
  success : Bool
  changeSetId : Option String
  error : Option String
deriving DecidableEq, Repr

structure CompResult where
  success : Bool
  componentId : Option String
  error : Option String
deriving DecidableEq, Repr

/-- The arguments of the `runTemplate` call (deployment.ts 283-287).  Note
that there is no credential field: the template reads the ambient
SI_API_TOKEN environment variable. -/
structure TemplateArgs where
  path : String
  key : String
  input : String
  dryRun : Bool
deriving DecidableEq, Repr

/-- The vpc-template step body (deployment.ts 277-296): set the process-wide
SI_API_TOKEN variable to the tenant workspace token, run the template (which
reads the ambient variable and may throw), and in a `finally` restore the
variable — JS truthiness: the original value is re-set only when it was a
non-empty string, otherwise the variable is deleted.  Returns the template
outcome, the ambient value during the run, and the ambient value after the
step. -/
def vpcTemplateStep (env0 : Option String) (token : String)
    (args : TemplateArgs)
    (run : TemplateArgs → Option String → Except String Unit) :
    Except String Unit × Option String × Option String :=
  let envDuring : Option String := some token
  let r := run args envDuring
  let envAfter : Option String :=
    match env0 with
    | some t => if t = "" then none else some t
    | none => none
  (r, envDuring, envAfter)

/-- The collaborator outcomes for one `deployTenant` run. -/
structure DeployEnv where
  /-- `crypto.randomUUID()` for `environmentUuid`. -/
  uuid : String
  /-- `changeSetService.createChangeSet`. -/
  createChangeSet : CSResult
  /-- `componentService.createComponent` for the AWS account component. -/
  createAccountComponent : CompResult
  /-- `componentService.createComponent` for the workspace component. -/
  createWorkspaceComponent : CompResult
  /-- `changeSetService.applyChangeSet` for the main change set. -/
  applyMain : ServiceResult
  /-- `tokenExtractor.extractTokenWithPolling` for the workspace token. -/
  tokenExtraction : TokenExtractionResult
  /-- the `externalId` harvested from the workspace component (null-able). -/
  workspaceExternalId : Option String
  /-- outcome of the AWS-account-id polling loop (deployment.ts 181-211). -/
  awsAccountId : Option String
  /-- `dynamoService.saveWorkspaceToken`. -/
  saveData : ServiceResult
  /-- `createStackSetForTenant`. -/
  stacksetResult : CSResult
  /-- `runTemplate`, reading the ambient SI_API_TOKEN value. -/
  runVpc : TemplateArgs → Option String → Except String Unit

structure OrchState where
  progress : List StepRec
  record : TenantDeployment
deriving Repr

/-- deployment.ts 48-57: push a progress entry and mirror it into the
durable record. -/
def updateProgress (s : OrchState) (step status message : String) : OrchState :=
  { progress := s.progress ++ [⟨step, status, message⟩]
    record := updateTenantDeploymentStep s.record step status message }

structure DeployResultM where
  success : Bool
  error : Option String
  changeSetId : Option String
  progress : List StepRec
deriving DecidableEq, Repr

structure DeployOut where
  result : DeployResultM
  state : OrchState
  envFinal : Option String
deriving Repr

/-- Step 7 of `deployTenant` (deployment.ts 178-222): the AWS-account-id
polling loop; every outcome is recorded as a `completed` step. -/
def awsExtractionStep (awsAccountId : Option String) (s : OrchState) :
    OrchState :=
  let s := updateProgress s "aws-extraction" "in_progress"
    "Extracting AWS Account ID..."
  match awsAccountId with
  | some a => updateProgress s "aws-extraction" "completed"
      ("AWS Account ID extracted: " ++ a)
  | none => updateProgress s "aws-extraction" "completed"
      "AWS Account ID not found after polling"

/-- Step 8 of `deployTenant` (deployment.ts 224-253): store the workspace
token and AWS account id; a failure is recorded as a `failed` step but the
run continues (workspaceData is always present on this path, since a failed
token extraction returned at step 6). -/
def dataStorageStep (saveData : ServiceResult) (wsId : Option String)
    (s : OrchState) : OrchState :=
  let s := updateProgress s "data-storage" "in_progress"
    "Storing workspace and AWS account data..."
  if saveData.success then
    updateProgress s "data-storage" "completed"
      ("Data stored successfully for workspace " ++ optStr wsId)
  else
    updateProgress s "data-storage" "failed"
      ("Failed to store data: " ++ optStr saveData.error)

/-- Step 9 of `deployTenant` (deployment.ts 255-272): StackSet seeding;
a failure is recorded as a `failed` step but the run continues. -/
def stacksetStep (awsAccountId : Option String) (stacksetResult : CSResult)
    (s : OrchState) : OrchState :=
  match awsAccountId with
  | some _ =>
      let s := updateProgress s "stackset-creation" "in_progress"
        "Creating StackSet for IAM role seeding..."
      if stacksetResult.success then
        updateProgress s "stackset-creation" "completed"
          ("StackSet changeset created and applied: " ++
            optStr stacksetResult.changeSetId)
      else
        updateProgress s "stackset-creation" "failed"
          ("StackSet creation failed: " ++ optStr stacksetResult.error)
  | none => updateProgress s "stackset-creation" "completed"
      "StackSet creation skipped - missing required data"

/-- Step 10 of `deployTenant` (deployment.ts 274-303): run the VPC template
with the ambient SI_API_TOKEN swapped to the tenant token (`vpcTemplateStep`);
a failure is recorded as a `failed` step but the run continues.  Returns the
updated state and the ambient SI_API_TOKEN value after the step. -/
def vpcStep (token : Option String) (uuid accountName : String)
    (env0 : Option String)
    (run : TemplateArgs → Option String → Except String Unit)
    (s : OrchState) : OrchState × Option String :=
  match token with
  | some t =>
      if t = "" then
        (updateProgress s "vpc-template" "completed"
          "VPC template execution skipped - missing workspace token", env0)
      else
        let s := updateProgress s "vpc-template" "in_progress"
          "Running AWS Standard VPC template..."
        let args : TemplateArgs :=
          ⟨"./src/si-templates/aws-standard-vpc.ts",
            accountName ++ "-vpc-" ++ uuid,
            "./src/si-templates/aws-standard-vpc-prod-input.yaml",
            false⟩
        let v := vpcTemplateStep env0 t args run
        match v.1 with
        | Except.ok _ =>
            (updateProgress s "vpc-template" "completed"
              "VPC template executed successfully", v.2.2)
        | Except.error m =>
            (updateProgress s "vpc-template" "failed"
              ("VPC template execution failed: " ++ m), v.2.2)
  | none =>
      (updateProgress s "vpc-template" "completed"
        "VPC template execution skipped - missing workspace token", env0)

/-- Steps 7-10 of `deployTenant` plus the final `complete` step: this part
of the pipeline has no early return — it always reaches `complete` and
returns success. -/
def deployTailSteps (env : DeployEnv) (accountName : String)
    (env0 : Option String) (s : OrchState) : DeployOut :=
  let s := awsExtractionStep env.awsAccountId s
  let s := dataStorageStep env.saveData env.tokenExtraction.workspaceId s
  let s := stacksetStep env.awsAccountId env.stacksetResult s
  let v := vpcStep env.tokenExtraction.token env.uuid accountName env0
    env.runVpc s
  let s := updateProgress v.1 "complete" "completed"
    "Tenant deployment completed successfully"
  { result := ⟨true, none, env.createChangeSet.changeSetId, s.progress⟩
    state := s, envFinal := v.2 }

/-- `DeploymentService.deployTenant`.  `env0` is the value of the ambient
SI_API_TOKEN variable when the run starts. -/
def deployTenant (env : DeployEnv) (accountName : String)
    (env0 : Option String) : DeployOut :=
  let s : OrchState := { progress := [], record := createTenantDeployment }
  -- Step 1: initialize
  let s := updateProgress s "initialize" "in_progress" "Initializing deployment..."
  let s := updateProgress s "initialize" "completed"
    ("Generated deployment ID: " ++ env.uuid)
  -- Step 2: create change set
  let s := updateProgress s "changeset" "in_progress" "Creating change set..."
  if env.createChangeSet.success then
    let s := updateProgress s "changeset" "completed"
      ("Change set created: " ++ optStr env.createChangeSet.changeSetId)
    -- Step 3: AWS Organizations Account component
    let s := updateProgress s "component" "in_progress"
      "Creating AWS Organizations Account component..."
    if env.createAccountComponent.success then
      let s := updateProgress s "component" "completed"
        ("AWS Account component created: " ++
          optStr env.createAccountComponent.componentId)
      -- Step 4: Workspace Management component
      let s := updateProgress s "workspace" "in_progress"
        "Creating Workspace Management component..."
      if env.createWorkspaceComponent.success then
        let s := updateProgress s "workspace" "completed"
          ("Workspace component created: " ++
            optStr env.createWorkspaceComponent.componentId)
        -- Step 5: apply the change set
        let s := updateProgress s "apply" "in_progress"
          "Applying changeset with both components..."
        if env.applyMain.success then
          let s := updateProgress s "apply" "completed"
            "Changeset applied successfully - both component actions completed"
          -- Step 6: extract the workspace token
          let s := updateProgress s "workspace-extraction" "in_progress"
            "Extracting workspace API token..."
          if env.tokenExtraction.success then
            let s := updateProgress s "workspace-extraction" "completed"
              ("Workspace token extracted: " ++
                optStr env.tokenExtraction.workspaceId)
            deployTailSteps env accountName env0 s
          else
            let s := updateProgress s "workspace-extraction" "failed"
              ("Workspace token extraction failed: Workspace token extraction failed: "
                ++ optStr env.tokenExtraction.error)
            { result := ⟨false,
                some ("Workspace token extraction failed: " ++
                  optStr env.tokenExtraction.error),
                env.createChangeSet.changeSetId, s.progress⟩
              state := s, envFinal := env0 }
        else
          let s := updateProgress s "apply" "failed"
            ("Failed to apply changeset: " ++ optStr env.applyMain.error)
          { result := ⟨false, env.applyMain.error,
              env.createChangeSet.changeSetId, s.progress⟩
            state := s, envFinal := env0 }
      else
        let s := updateProgress s "workspace" "failed"
          ("Failed to create workspace component: " ++
            optStr env.createWorkspaceComponent.error)
        { result := ⟨false, env.createWorkspaceComponent.error,
            env.createChangeSet.changeSetId, s.progress⟩
          state := s, envFinal := env0 }
    else
      let s := updateProgress s "component" "failed"
        ("Failed to create component: " ++
          optStr env.createAccountComponent.error)
      { result := ⟨false, env.createAccountComponent.error,
          env.createChangeSet.changeSetId, s.progress⟩
        state := s, envFinal := env0 }
  else
    let s := updateProgress s "changeset" "failed"
      ("Failed to create change set: " ++ optStr env.createChangeSet.error)
    { result := ⟨false, env.createChangeSet.error, none, s.progress⟩
      state := s, envFinal := env0 }

/-! ## Concrete environments used by witnesses and counterexamples -/

def envAllGood : DeployEnv :=
  { uuid := "u1"
    createChangeSet := ⟨true, some "cs-1", none⟩
    createAccountComponent := ⟨true, some "comp-acct", none⟩
    createWorkspaceComponent := ⟨true, some "comp-ws", none⟩
    applyMain := ⟨true, none⟩
    tokenExtraction := ⟨true, some "tok-1", some "ws-1", none, none⟩
    workspaceExternalId := some "ext-1"
    awsAccountId := some "123456789012"
    saveData := ⟨true, none⟩
    stacksetResult := ⟨true, some "cs-2", none⟩
    runVpc := fun _ _ => Except.ok () }

/-- All collaborators fine except that `saveWorkspaceToken` reports failure. -/
def envSaveFail : DeployEnv :=
  { envAllGood with saveData := ⟨false, some "dynamo down"⟩ }

/-- All collaborators fine except that `runTemplate` throws. -/
def envVpcFail : DeployEnv :=
  { envAllGood with runVpc := fun _ _ => Except.error "boom" }

/-! ## Helper lemmas -/

theorem applyAttemptsFrom_precond_general (probe : Nat → ApplyOutcome) (T : Nat)
    (hp : ∀ k, probe k = ApplyOutcome.precond) :
    ∀ d k, T - 5 * k = d → 5 * k < T →
      ∃ m, 0 < m ∧
        applyAttemptsFrom probe T k =
          ((List.range m).map (fun i => 5 * (k + i)),
            ApplyExit.softGiveUp (k + (m - 1))) ∧
        T - 5 * (k + (m - 1)) ≤ 5 ∧
        ∀ i, i + 1 < m → 5 < T - 5 * (k + i) := by
  intro d
  induction d using Nat.strong_induction_on with
  | _ d ih =>
    intro k hd hk
    rw [applyAttemptsFrom]
    rw [dif_pos hk, hp k]
    by_cases h5 : T - 5 * k ≤ 5
    · rw [if_pos h5]
      refine ⟨1, Nat.one_pos, ?_, ?_, ?_⟩
      · rw [show List.range 1 = [0] from rfl]
        simp
      · simpa using h5
      · intro i hi; omega
    · rw [if_neg h5]
      have hk1 : 5 * (k + 1) < T := by omega
      obtain ⟨m, hm, heq, hrem, hall⟩ :=
        ih (T - 5 * (k + 1)) (by omega) (k + 1) rfl hk1
      have hidx : k + 1 + (m - 1) = k + (m + 1 - 1) := by omega
      refine ⟨m + 1, by omega, ?_, by omega, ?_⟩
      · rw [heq]
        simp only [Prod.mk.injEq]
        constructor
        · rw [List.range_succ_eq_map]
          simp only [List.map_cons, List.map_map, List.cons.injEq]
          constructor
          · omega
          · apply List.map_congr_left
            intro i _
            simp only [Function.comp_apply]
            omega
        · rw [hidx]
      · intro i hi
        cases i with
        | zero => omega
        | succ j =>
          have := hall j (by omega)
          omega

/-! ## C1 -/

/-- C1: for a commit (`applyChangeSet`) call whose apply attempt always
signals precondition-not-met (428), the attempts happen at 5-second
intervals (times `0, 5, …, 5*(n-1)`); every attempt but the last is made
with more than 5 seconds remaining in `timeoutSeconds` (after it the client
sleeps 5 s and retries); at the single final attempt at most 5 seconds
remain, after which the client stops retrying and proceeds — the call goes
on (success result) rather than failing. -/
theorem applyChangeSet_retry_cadence (probe : Nat → ApplyOutcome) (T : Nat)
    (hp : ∀ k, probe k = ApplyOutcome.precond) (hT : 0 < T) :
    ∃ n, 0 < n ∧
      applyAttemptsFrom probe T 0 =
        ((List.range n).map (fun i => 5 * i), ApplyExit.softGiveUp (n - 1)) ∧
      T - 5 * (n - 1) ≤ 5 ∧
      (∀ i, i + 1 < n → 5 < T - 5 * i) ∧
      ∀ ids sp, (applyChangeSet probe T ids sp).1.success = true := by
  obtain ⟨m, hm, heq, hrem, hall⟩ :=
    applyAttemptsFrom_precond_general probe T hp T 0 rfl (by omega)
  have hmap : (List.range m).map (fun i => 5 * (0 + i)) =
      (List.range m).map (fun i => 5 * i) := by
    apply List.map_congr_left; intro i _; omega
  have heq2 : applyAttemptsFrom probe T 0 =
      ((List.range m).map (fun i => 5 * i), ApplyExit.softGiveUp (m - 1)) := by
    rw [heq, hmap]
    simp
  refine ⟨m, hm, heq2, by simpa using hrem, ?_, ?_⟩
  · intro i hi
    have := hall i hi
    simpa using this
  · intro ids sp
    have hexit : (applyAttemptsFrom probe T 0).2 = ApplyExit.softGiveUp (m - 1) := by
      rw [heq2]
    unfold applyChangeSet
    rw [hexit]
    split
    all_goals first
      | (split <;> rfl)
      | simp_all

/-- Witness for C1 at `timeoutSeconds = 30` with an always-428 control
plane. -/
theorem applyChangeSet_retry_cadence_witness :
    0 < 30 ∧
    ∃ n, 0 < n ∧
      applyAttemptsFrom (fun _ => ApplyOutcome.precond) 30 0 =
        ((List.range n).map (fun i => 5 * i), ApplyExit.softGiveUp (n - 1)) ∧
      30 - 5 * (n - 1) ≤ 5 ∧
      (∀ i, i + 1 < n → 5 < 30 - 5 * i) ∧
      ∀ ids sp,
        (applyChangeSet (fun _ => ApplyOutcome.precond) 30 ids sp).1.success = true :=
  ⟨by decide,
    applyChangeSet_retry_cadence (fun _ => ApplyOutcome.precond) 30
      (fun _ => rfl) (by decide)⟩

theorem pollRunning_ok (probe : Nat → Except String (List String))
    (ids : List String) (j : Nat) (h : pollRunning probe ids j = true) :
    ∃ acts, probe j = Except.ok acts ∧
      (acts.filter (fun x => ids.contains x)).isEmpty = false := by
  unfold pollRunning at h
  cases hp : probe j with
  | error e => rw [hp] at h; simp at h
  | ok acts =>
      rw [hp] at h
      exact ⟨acts, rfl, by simpa using h⟩

theorem monitorFrom_drained_general (probe : Nat → Except String (List String))
    (ids : List String) (k : Nat) (acts : List String)
    (hk : 2000 * k < 60000) (hok : probe k = Except.ok acts)
    (hempty : (acts.filter (fun x => ids.contains x)).isEmpty = true) :
    ∀ d i, k - i = d → i ≤ k →
      (∀ j, i ≤ j → j < k → pollRunning probe ids j = true) →
      monitorFrom probe ids i = MonitorExit.drained k := by
  intro d
  induction d using Nat.strong_induction_on with
  | _ d ih =>
    intro i hd hik hrun
    rw [monitorFrom, dif_pos (by omega : 2000 * i < 60000)]
    rcases Nat.lt_or_ge i k with hlt | hge
    · obtain ⟨a, hok2, hne⟩ := pollRunning_ok probe ids i (hrun i le_rfl hlt)
      simp only [hok2]
      rw [if_neg (by rw [hne]; simp)]
      exact ih (k - (i + 1)) (by omega) (i + 1) rfl (by omega)
        (fun j h1 h2 => hrun j (by omega) h2)
    · have hik2 : i = k := by omega
      subst hik2
      simp only [hok]
      rw [if_pos hempty]

theorem monitorFrom_timeout_general (probe : Nat → Except String (List String))
    (ids : List String)
    (hrun : ∀ j, j < 30 → pollRunning probe ids j = true) :
    ∀ d i, 30 - i = d → monitorFrom probe ids i = MonitorExit.timedOut := by
  intro d
  induction d using Nat.strong_induction_on with
  | _ d ih =>
    intro i hd
    rw [monitorFrom]
    rcases Nat.lt_or_ge i 30 with hlt | hge
    · rw [dif_pos (by omega : 2000 * i < 60000)]
      obtain ⟨a, hok2, hne⟩ := pollRunning_ok probe ids i (hrun i hlt)
      simp only [hok2]
      rw [if_neg (by rw [hne]; simp)]
      exact ih (30 - (i + 1)) (by omega) (i + 1) rfl
    · rw [dif_neg (by omega : ¬ 2000 * i < 60000)]

/-! ## C7 -/

/-- C7: for a commit call with a non-empty monitored component list, after a
successful apply the client polls the merge-status view (every 2000 ms
within a 60000 ms window, i.e. poll `k` at `2000 * k`): it stops with
`drained k` at the first poll where no action of a monitored component
remains, returns `timedOut` when all 30 polls of the window still see such
actions — and in every such case `applyChangeSet` itself returns success
(`{ success: true }`), the timeout being soft. -/
theorem applyChangeSet_monitors_actions (applyProbe : Nat → ApplyOutcome)
    (T : Nat) (ids : List String)
    (statusProbe : Nat → Except String (List String))
    (hids : ids.isEmpty = false) :
    (∀ k acts, 2000 * k < 60000 →
        (∀ j, j < k → pollRunning statusProbe ids j = true) →
        statusProbe k = Except.ok acts →
        (acts.filter (fun x => ids.contains x)).isEmpty = true →
        monitorFrom statusProbe ids 0 = MonitorExit.drained k) ∧
    ((∀ j, j < 30 → pollRunning statusProbe ids j = true) →
        monitorFrom statusProbe ids 0 = MonitorExit.timedOut) ∧
    (applyProbe 0 = ApplyOutcome.ok → 0 < T →
        applyChangeSet applyProbe T ids statusProbe =
          (⟨true, none⟩, ApplyExit.applied 0,
            some (monitorFrom statusProbe ids 0))) := by
  refine ⟨?_, ?_, ?_⟩
  · intro k acts hk hrun hok hempty
    exact monitorFrom_drained_general statusProbe ids k acts hk hok hempty
      k 0 (by omega) (by omega) (fun j h1 h2 => hrun j h2)
  · intro hrun
    exact monitorFrom_timeout_general statusProbe ids hrun 30 0 (by omega)
  · intro hap hT
    have ha : applyAttemptsFrom applyProbe T 0 = ([0], ApplyExit.applied 0) := by
      rw [applyAttemptsFrom, dif_pos (by omega : 5 * 0 < T), hap]
    have hexit : (applyAttemptsFrom applyProbe T 0).2 = ApplyExit.applied 0 := by
      rw [ha]
    unfold applyChangeSet
    rw [hexit]
    simp [hids]

def monitorProbeW : Nat → Except String (List String) :=
  fun j => if j < 2 then Except.ok ["c1"] else Except.ok []

/-- Witness for C7: one monitored component whose actions drain at the third
poll. -/
theorem applyChangeSet_monitors_actions_witness :
    monitorFrom monitorProbeW ["c1"] 0 = MonitorExit.drained 2 ∧
    applyChangeSet (fun _ => ApplyOutcome.ok) 120 ["c1"] monitorProbeW =
      (⟨true, none⟩, ApplyExit.applied 0, some (MonitorExit.drained 2)) := by
  have h := applyChangeSet_monitors_actions (fun _ => ApplyOutcome.ok) 120
    ["c1"] monitorProbeW (by decide)
  have h1 := h.1 2 [] (by decide) (by decide) rfl (by decide)
  have h3 := h.2.2 rfl (by decide)
  exact ⟨h1, by rw [h3, h1]⟩

theorem isSoftAbsent_parts (r : TokenExtractionResult)
    (h : isSoftAbsent r = true) :
    r.success = false ∧ isHardFailure r = false := by
  unfold isSoftAbsent at h
  simp only [Bool.and_eq_true, Bool.not_eq_true'] at h
  exact h

theorem extractExitFrom_found_general (probe : Nat → TokenExtractionResult)
    (T k : Nat) (hk : 5000 * k < T) (hsucc : (probe k).success = true) :
    ∀ d i, k - i = d → i ≤ k →
      (∀ j, i ≤ j → j < k → isSoftAbsent (probe j) = true) →
      extractExitFrom probe T i = ExtractExit.found k (probe k) := by
  intro d
  induction d using Nat.strong_induction_on with
  | _ d ih =>
    intro i hd hik hsoft
    rw [extractExitFrom, dif_pos (by omega : 5000 * i < T)]
    rcases Nat.lt_or_ge i k with hlt | hge
    · obtain ⟨h1, h2⟩ := isSoftAbsent_parts (probe i) (hsoft i le_rfl hlt)
      rw [if_neg (by rw [h1]; simp), if_neg (by rw [h2]; simp),
        if_neg (by omega : ¬ T - 5000 * i ≤ 0)]
      exact ih (k - (i + 1)) (by omega) (i + 1) rfl (by omega)
        (fun j ha hb => hsoft j (by omega) hb)
    · have hik2 : i = k := by omega
      subst hik2
      rw [if_pos hsucc]

theorem extractExitFrom_hard_general (probe : Nat → TokenExtractionResult)
    (T k : Nat) (hk : 5000 * k < T) (hsucc : (probe k).success = false)
    (hhard : isHardFailure (probe k) = true) :
    ∀ d i, k - i = d → i ≤ k →
      (∀ j, i ≤ j → j < k → isSoftAbsent (probe j) = true) →
      extractExitFrom probe T i = ExtractExit.hardFail k (probe k) := by
  intro d
  induction d using Nat.strong_induction_on with
  | _ d ih =>
    intro i hd hik hsoft
    rw [extractExitFrom, dif_pos (by omega : 5000 * i < T)]
    rcases Nat.lt_or_ge i k with hlt | hge
    · obtain ⟨h1, h2⟩ := isSoftAbsent_parts (probe i) (hsoft i le_rfl hlt)
      rw [if_neg (by rw [h1]; simp), if_neg (by rw [h2]; simp),
        if_neg (by omega : ¬ T - 5000 * i ≤ 0)]
      exact ih (k - (i + 1)) (by omega) (i + 1) rfl (by omega)
        (fun j ha hb => hsoft j (by omega) hb)
    · have hik2 : i = k := by omega
      subst hik2
      rw [if_neg (by rw [hsucc]; simp), if_pos hhard]

theorem extractExitFrom_timeout_inv (probe : Nat → TokenExtractionResult)
    (T : Nat) :
    ∀ d i n, T - 5000 * i = d →
      extractExitFrom probe T i = ExtractExit.timedOut n →
      T ≤ 5000 * n ∧ i ≤ n ∧
        ∀ j, i ≤ j → 5000 * j < T → isSoftAbsent (probe j) = true := by
  intro d
  induction d using Nat.strong_induction_on with
  | _ d ih =>
    intro i n hd h
    rw [extractExitFrom] at h
    by_cases hin : 5000 * i < T
    · rw [dif_pos hin] at h
      cases hsucc : (probe i).success with
      | true => rw [if_pos hsucc] at h; cases h
      | false =>
        rw [if_neg (by rw [hsucc]; simp)] at h
        cases hhard : isHardFailure (probe i) with
        | true => rw [if_pos hhard] at h; cases h
        | false =>
          rw [if_neg (by rw [hhard]; simp),
            if_neg (by omega : ¬ T - 5000 * i ≤ 0)] at h
          obtain ⟨ha, hb, hc⟩ := ih (T - 5000 * (i + 1)) (by omega) (i + 1) n rfl h
          refine ⟨ha, by omega, ?_⟩
          intro j hj hjT
          rcases Nat.eq_or_lt_of_le hj with hj2 | hj2
          · subst hj2
            simp [isSoftAbsent, hsucc, hhard]
          · exact hc j (by omega) hjT
    · rw [dif_neg hin] at h
      cases h
      exact ⟨by omega, le_rfl, fun j hj hjT => absurd hjT (by omega)⟩

/-! ## C5 -/

/-- C5: `extractTokenWithPolling` returns success at the first poll cycle
where the token is present (all earlier cycles being soft absences) and
performs no further polls afterward (the outcome does not depend on probe
results beyond that cycle); and it produces the timeout result only once the
full timeout window is exhausted (`timeoutMs ≤ 5000 * n`) with the value
absent (soft) on every cycle of the window. -/
theorem extractTokenWithPolling_first_success
    (probe : Nat → TokenExtractionResult) (timeoutMs : Nat) :
    (∀ k, 5000 * k < timeoutMs → (probe k).success = true →
        (∀ j, j < k → isSoftAbsent (probe j) = true) →
        extractExitFrom probe timeoutMs 0 = ExtractExit.found k (probe k) ∧
        extractTokenWithPolling probe timeoutMs = probe k ∧
        ∀ probe2 : Nat → TokenExtractionResult,
          (∀ j, j ≤ k → probe2 j = probe j) →
          extractExitFrom probe2 timeoutMs 0 = ExtractExit.found k (probe k)) ∧
    (∀ n, extractExitFrom probe timeoutMs 0 = ExtractExit.timedOut n →
        timeoutMs ≤ 5000 * n ∧
        extractTokenWithPolling probe timeoutMs = timeoutReachedResult ∧
        ∀ k, 5000 * k < timeoutMs → isSoftAbsent (probe k) = true) := by
  constructor
  · intro k hk hsucc hsoft
    have hfound := extractExitFrom_found_general probe timeoutMs k hk hsucc
      k 0 (by omega) (by omega) (fun j ha hb => hsoft j hb)
    refine ⟨hfound, ?_, ?_⟩
    · unfold extractTokenWithPolling
      rw [hfound]
      rfl
    · intro probe2 h2
      have hsucc2 : (probe2 k).success = true := by rw [h2 k le_rfl]; exact hsucc
      have hfound2 := extractExitFrom_found_general probe2 timeoutMs k hk hsucc2
        k 0 (by omega) (by omega)
        (fun j ha hb => by rw [h2 j (by omega)]; exact hsoft j hb)
      rw [hfound2, h2 k le_rfl]
  · intro n h
    obtain ⟨ha, hb, hc⟩ :=
      extractExitFrom_timeout_inv probe timeoutMs (timeoutMs - 5000 * 0) 0 n rfl h
    refine ⟨ha, ?_, fun k hk => hc k (by omega) hk⟩
    unfold extractTokenWithPolling
    rw [h]
    rfl

/-- A probe for the C5 witness: the token is absent (soft) at cycle 0 and
present at cycle 1. -/
def probeW5 : Nat → TokenExtractionResult :=
  fun k =>
    if k = 1 then ⟨true, some "tk", some "ws", none, none⟩
    else ⟨false, none, none, none, some "initialApiToken not found in component"⟩

/-- Witness for C5: the polling extractor returns the cycle-1 success. -/
theorem extractTokenWithPolling_first_success_witness :
    extractExitFrom probeW5 60000 0 = ExtractExit.found 1 (probeW5 1) ∧
    extractTokenWithPolling probeW5 60000 = probeW5 1 :=
  have h := (extractTokenWithPolling_first_success probeW5 60000).1 1
    (by decide) (by decide) (by decide)
  ⟨h.1, h.2.1⟩

/-! ## C6 -/

/-- C6: in `extractTokenWithPolling` a probe whose error does not carry the
token-not-found marker is hard: reached after soft absences, it makes the
call abort at that very cycle, returning that probe result unchanged, with
no further poll (the outcome does not depend on probe results beyond that
cycle); whereas a soft absence (token-not-found) keeps the loop polling:
after any run of soft absences the next cycle is still polled (here: a
success at cycle `k + 1` is returned even though cycle `k` was absent). -/
theorem extractTokenWithPolling_soft_vs_hard
    (probe : Nat → TokenExtractionResult) (timeoutMs : Nat) :
    (∀ k, 5000 * k < timeoutMs → (probe k).success = false →
        isHardFailure (probe k) = true →
        (∀ j, j < k → isSoftAbsent (probe j) = true) →
        extractExitFrom probe timeoutMs 0 = ExtractExit.hardFail k (probe k) ∧
        extractTokenWithPolling probe timeoutMs = probe k ∧
        ∀ probe2 : Nat → TokenExtractionResult,
          (∀ j, j ≤ k → probe2 j = probe j) →
          extractExitFrom probe2 timeoutMs 0 = ExtractExit.hardFail k (probe k)) ∧
    (∀ k, (∀ j, j ≤ k → isSoftAbsent (probe j) = true) →
        5000 * (k + 1) < timeoutMs → (probe (k + 1)).success = true →
        extractExitFrom probe timeoutMs 0 =
          ExtractExit.found (k + 1) (probe (k + 1))) := by
  constructor
  · intro k hk hsucc hhard hsoft
    have hfail := extractExitFrom_hard_general probe timeoutMs k hk hsucc hhard
      k 0 (by omega) (by omega) (fun j ha hb => hsoft j hb)
    refine ⟨hfail, ?_, ?_⟩
    · unfold extractTokenWithPolling
      rw [hfail]
      rfl
    · intro probe2 h2
      have hsucc2 : (probe2 k).success = false := by rw [h2 k le_rfl]; exact hsucc
      have hhard2 : isHardFailure (probe2 k) = true := by
        rw [h2 k le_rfl]; exact hhard
      have hfail2 := extractExitFrom_hard_general probe2 timeoutMs k hk hsucc2
        hhard2 k 0 (by omega) (by omega)
        (fun j ha hb => by rw [h2 j (by omega)]; exact hsoft j hb)
      rw [hfail2, h2 k le_rfl]
  · intro k hsoft hk1 hsucc
    exact extractExitFrom_found_general probe timeoutMs (k + 1) hk1 hsucc
      (k + 1) 0 (by omega) (by omega)
      (fun j ha hb => hsoft j (by omega))

/-- A probe for the C6 witness: a hard failure (resource not found at all)
already at cycle 0. -/
def probeW6 : Nat → TokenExtractionResult :=
  fun _ => ⟨false, none, none, none, some "HTTP 404: component missing"⟩

/-- Witness for C6: a non-token-not-found error aborts at cycle 0 and is
returned verbatim. -/
theorem extractTokenWithPolling_soft_vs_hard_witness :
    extractExitFrom probeW6 60000 0 = ExtractExit.hardFail 0 (probeW6 0) ∧
    extractTokenWithPolling probeW6 60000 = probeW6 0 :=
  have h := (extractTokenWithPolling_soft_vs_hard probeW6 60000).1 0
    (by decide) (by decide) (by decide) (by decide)
  ⟨h.1, h.2.1⟩

/-! ## C9 -/

/-- C9: after any sequence of append operations (and whatever the prior
record state), the record written by `updateTenantDeploymentStep` has a
non-empty step list whose last entry is the appended StepRecord, and
`currentStep` equals that entry's step name. -/
theorem recorder_currentStep_matches_last (rec : TenantDeployment)
    (ops : List StepRec) (h : ops ≠ []) :
    ∃ r, (recordAfterOps rec ops).steps.getLast? = some r ∧
      (recordAfterOps rec ops).currentStep = r.step := by
  induction ops generalizing rec with
  | nil => exact absurd rfl h
  | cons p rest ih =>
    cases rest with
    | nil =>
        refine ⟨⟨p.step, p.status, p.message⟩, ?_, rfl⟩
        simp only [recordAfterOps, List.foldl_cons, List.foldl_nil,
          updateTenantDeploymentStep]
        rw [List.getLast?_append_cons]
        rfl
    | cons q rest2 =>
        have h2 := ih (updateTenantDeploymentStep rec p.step p.status p.message)
          (by simp)
        simpa [recordAfterOps] using h2

/-- Witness for C9 with a single append. -/
theorem recorder_currentStep_matches_last_witness :
    ∃ r, (recordAfterOps createTenantDeployment
        [⟨"initialize", "in_progress", "Initializing deployment..."⟩]).steps.getLast?
          = some r ∧
      (recordAfterOps createTenantDeployment
        [⟨"initialize", "in_progress", "Initializing deployment..."⟩]).currentStep
          = r.step :=
  recorder_currentStep_matches_last createTenantDeployment
    [⟨"initialize", "in_progress", "Initializing deployment..."⟩] (by decide)

/-! ## C8 -/

theorem recordAfterOps_status_cases (rec : TenantDeployment)
    (ops : List StepRec) :
    (recordAfterOps rec ops).status = rec.status ∨
      ∃ p, p ∈ ops ∧ (recordAfterOps rec ops).status = p.status := by
  induction ops generalizing rec with
  | nil => exact Or.inl rfl
  | cons p rest ih =>
    rcases ih (updateTenantDeploymentStep rec p.step p.status p.message) with
      h | ⟨q, hq, h⟩
    · right
      exact ⟨p, by simp, by simpa [recordAfterOps] using h⟩
    · right
      exact ⟨q, by simp [hq], by simpa [recordAfterOps] using h⟩

/-- The step statuses `deployTenant` passes to the recorder. -/
def okStatus (p : StepRec) : Bool :=
  p.status = "in_progress" || p.status = "completed" || p.status = "failed"

theorem all_updateProgress (P : StepRec → Bool) (s : OrchState)
    (a b c : String) (hs : s.progress.all P = true)
    (hp : P ⟨a, b, c⟩ = true) :
    ((updateProgress s a b c).progress).all P = true := by
  simp [updateProgress, List.all_append, hs, hp]

theorem awsExtractionStep_all (aws : Option String) (s : OrchState)
    (hs : s.progress.all okStatus = true) :
    ((awsExtractionStep aws s).progress).all okStatus = true := by
  unfold awsExtractionStep
  cases aws <;>
    (apply all_updateProgress _ _ _ _ _ ?_ (by simp [okStatus])
     exact all_updateProgress _ _ _ _ _ hs (by simp [okStatus]))

theorem dataStorageStep_all (sd : ServiceResult) (wsId : Option String)
    (s : OrchState) (hs : s.progress.all okStatus = true) :
    ((dataStorageStep sd wsId s).progress).all okStatus = true := by
  unfold dataStorageStep
  split <;>
    (apply all_updateProgress _ _ _ _ _ ?_ (by simp [okStatus])
     exact all_updateProgress _ _ _ _ _ hs (by simp [okStatus]))

theorem stacksetStep_all (aws : Option String) (ss : CSResult)
    (s : OrchState) (hs : s.progress.all okStatus = true) :
    ((stacksetStep aws ss s).progress).all okStatus = true := by
  unfold stacksetStep
  repeat' split
  all_goals first
    | exact all_updateProgress _ _ _ _ _ hs (by simp [okStatus])
    | (apply all_updateProgress _ _ _ _ _ ?_ (by simp [okStatus])
       exact all_updateProgress _ _ _ _ _ hs (by simp [okStatus]))

theorem vpcStep_all (tok : Option String) (u a : String)
    (e0 : Option String)
    (run : TemplateArgs → Option String → Except String Unit)
    (s : OrchState) (hs : s.progress.all okStatus = true) :
    (((vpcStep tok u a e0 run s).1).progress).all okStatus = true := by
  unfold vpcStep
  dsimp only
  repeat' split
  all_goals first
    | exact all_updateProgress _ _ _ _ _ hs (by simp [okStatus])
    | (apply all_updateProgress _ _ _ _ _ ?_ (by simp [okStatus])
       exact all_updateProgress _ _ _ _ _ hs (by simp [okStatus]))

theorem deployTailSteps_all (env : DeployEnv) (a : String)
    (e0 : Option String) (s : OrchState)
    (hs : s.progress.all okStatus = true) :
    (((deployTailSteps env a e0 s).state).progress).all okStatus = true := by
  unfold deployTailSteps
  exact all_updateProgress _ _ _ _ _
    (vpcStep_all _ _ _ _ _ _
      (stacksetStep_all _ _ _
        (dataStorageStep_all _ _ _
          (awsExtractionStep_all _ _ hs))))
    (by simp [okStatus])

/-- Every progress entry of a `deployTenant` run has one of the step
statuses the orchestrator actually passes. -/
theorem deployTenant_step_statuses (env : DeployEnv) (accountName : String)
    (env0 : Option String) :
    ((deployTenant env accountName env0).state.progress).all okStatus = true := by
  unfold deployTenant
  repeat' split
  all_goals first
    | (apply deployTailSteps_all
       simp [updateProgress, okStatus])
    | simp [updateProgress, okStatus]

/-- C8 (amended): at every point of a deployment (after any number `n` of
recorder appends), the persisted Deployment record status is one of
`started`, `in_progress`, `completed`, `failed`. -/
theorem deployment_status_four_valued (env : DeployEnv)
    (accountName : String) (env0 : Option String) (n : Nat) :
    (recordAfterOps createTenantDeployment
        (((deployTenant env accountName env0).state.progress).take n)).status ∈
      (["started", "in_progress", "completed", "failed"] : List String) := by
  rcases recordAfterOps_status_cases createTenantDeployment
    (((deployTenant env accountName env0).state.progress).take n) with
    h | ⟨p, hp, h⟩
  · rw [h]
    simp [createTenantDeployment]
  · have hmem : p ∈ (deployTenant env accountName env0).state.progress :=
      List.take_subset n _ hp
    have hall := deployTenant_step_statuses env accountName env0
    rw [List.all_eq_true] at hall
    have hok := hall p hmem
    unfold okStatus at hok
    simp only [Bool.or_eq_true, decide_eq_true_eq] at hok
    rw [h]
    rcases hok with (h1 | h1) | h1 <;> simp [h1]

/-- C8 counterexample: right after the first recorder append of a fully
successful run, the stored status is `in_progress`, which is not among
`started`, `completed`, `failed`. -/
theorem deployment_status_three_valued_cex :
    (recordAfterOps createTenantDeployment
        (((deployTenant envAllGood "acme" none).state.progress).take 1)).status =
      "in_progress" ∧
    ¬ ("in_progress" ∈ (["started", "completed", "failed"] : List String)) := by
  constructor
  · rfl
  · decide

/-! ## C2 -/

/-- C2 (amended): if the create_primary_resource step (the AWS account
component creation) fails while the change set was created, the orchestrator
halts immediately: the progress log is exactly the six records up to the
`component`/`failed` one (no StepRecord for any later state), the Deployment
record status is `failed` with the triggering error message stored, and the
returned result is a failure carrying the change-set id and the full partial
progress log. -/
theorem deployTenant_component_failure_halts (env : DeployEnv)
    (accountName : String) (env0 : Option String)
    (h1 : env.createChangeSet.success = true)
    (h2 : env.createAccountComponent.success = false) :
    (deployTenant env accountName env0).result.success = false ∧
    (deployTenant env accountName env0).result.error =
      env.createAccountComponent.error ∧
    (deployTenant env accountName env0).result.changeSetId =
      env.createChangeSet.changeSetId ∧
    (deployTenant env accountName env0).state.progress =
      [⟨"initialize", "in_progress", "Initializing deployment..."⟩,
       ⟨"initialize", "completed", "Generated deployment ID: " ++ env.uuid⟩,
       ⟨"changeset", "in_progress", "Creating change set..."⟩,
       ⟨"changeset", "completed",
         "Change set created: " ++ optStr env.createChangeSet.changeSetId⟩,
       ⟨"component", "in_progress",
         "Creating AWS Organizations Account component..."⟩,
       ⟨"component", "failed",
         "Failed to create component: " ++
           optStr env.createAccountComponent.error⟩] ∧
    (deployTenant env accountName env0).state.record.status = "failed" ∧
    (deployTenant env accountName env0).state.record.error =
      some ("Failed to create component: " ++
        optStr env.createAccountComponent.error) ∧
    (deployTenant env accountName env0).result.progress =
      (deployTenant env accountName env0).state.progress := by
  unfold deployTenant
  rw [if_pos h1, if_neg (by rw [h2]; simp)]
  refine ⟨rfl, rfl, rfl, ?_, ?_, ?_, rfl⟩ <;>
    simp [updateProgress, updateTenantDeploymentStep, createTenantDeployment]

/-- All collaborators fine except that the AWS account component creation
fails. -/
def envComponentFail : DeployEnv :=
  { envAllGood with createAccountComponent := ⟨false, none, some "schema missing"⟩ }

/-- Witness for the amended C2 at a concrete environment. -/
theorem deployTenant_component_failure_halts_witness :
    (deployTenant envComponentFail "acme" none).result.success = false ∧
    (deployTenant envComponentFail "acme" none).state.record.status = "failed" ∧
    (deployTenant envComponentFail "acme" none).state.progress.length = 6 := by
  have h := deployTenant_component_failure_halts envComponentFail "acme" none
    rfl rfl
  exact ⟨h.1, h.2.2.2.2.1, by rw [h.2.2.2.1]; rfl⟩

/-- C2 counterexample: when the data-storage step fails, a `failed`
StepRecord is appended and yet the run continues — records for
stackset-creation, vpc-template and complete follow, and the deployment
result is success with final record status `completed`. -/
theorem deployTenant_halt_on_failed_cex :
    ((deployTenant envSaveFail "acme" none).state.progress.map
        (fun p => (p.step, p.status))) =
      [("initialize", "in_progress"), ("initialize", "completed"),
       ("changeset", "in_progress"), ("changeset", "completed"),
       ("component", "in_progress"), ("component", "completed"),
       ("workspace", "in_progress"), ("workspace", "completed"),
       ("apply", "in_progress"), ("apply", "completed"),
       ("workspace-extraction", "in_progress"),
       ("workspace-extraction", "completed"),
       ("aws-extraction", "in_progress"), ("aws-extraction", "completed"),
       ("data-storage", "in_progress"), ("data-storage", "failed"),
       ("stackset-creation", "in_progress"), ("stackset-creation", "completed"),
       ("vpc-template", "in_progress"), ("vpc-template", "completed"),
       ("complete", "completed")] ∧
    (deployTenant envSaveFail "acme" none).result.success = true ∧
    (deployTenant envSaveFail "acme" none).state.record.status = "completed" :=
  ⟨rfl, rfl, rfl⟩

/-! ## C4 -/

/-- C4 (amended): in any run whose steps up to token extraction succeed and
whose VPC template run throws, the failure is recorded as a `failed`
StepRecord (not a completed-with-warning one), immediately followed by the
final `complete`/`completed` record — the run continues and the result
reports success with no error. -/
theorem deployTenant_vpc_failure_soft (env : DeployEnv)
    (accountName : String) (env0 : Option String) (t m : String)
    (h1 : env.createChangeSet.success = true)
    (h2 : env.createAccountComponent.success = true)
    (h3 : env.createWorkspaceComponent.success = true)
    (h4 : env.applyMain.success = true)
    (h5 : env.tokenExtraction.success = true)
    (h6 : env.tokenExtraction.token = some t)
    (h7 : t ≠ "")
    (h8 : env.runVpc
        ⟨"./src/si-templates/aws-standard-vpc.ts",
          accountName ++ "-vpc-" ++ env.uuid,
          "./src/si-templates/aws-standard-vpc-prod-input.yaml", false⟩
        (some t) = Except.error m) :
    (deployTenant env accountName env0).result.success = true ∧
    (deployTenant env accountName env0).result.error = none ∧
    [⟨"vpc-template", "in_progress", "Running AWS Standard VPC template..."⟩,
     ⟨"vpc-template", "failed", "VPC template execution failed: " ++ m⟩,
     ⟨"complete", "completed", "Tenant deployment completed successfully"⟩] <:+
      (deployTenant env accountName env0).state.progress := by
  unfold deployTenant
  rw [if_pos h1, if_pos h2, if_pos h3, if_pos h4, if_pos h5]
  unfold deployTailSteps vpcStep
  try dsimp only
  rw [h6]
  try dsimp only
  rw [if_neg h7]
  unfold vpcTemplateStep
  try dsimp only
  rw [h8]
  refine ⟨rfl, rfl, ?_⟩
  simp only [updateProgress]
  try dsimp only
  have hsfx : ∀ (l : List StepRec) (x y z : StepRec),
      [x, y, z] <:+ ((l ++ [x]) ++ [y]) ++ [z] := by
    intro l x y z
    have h := List.suffix_append l [x, y, z]
    simpa [List.append_assoc] using h
  exact hsfx _ _ _ _

/-- Witness for the amended C4 at a concrete environment. -/
theorem deployTenant_vpc_failure_soft_witness :
    (deployTenant envVpcFail "acme" none).result.success = true ∧
    (deployTenant envVpcFail "acme" none).result.error = none ∧
    [⟨"vpc-template", "in_progress", "Running AWS Standard VPC template..."⟩,
     ⟨"vpc-template", "failed", "VPC template execution failed: " ++ "boom"⟩,
     ⟨"complete", "completed", "Tenant deployment completed successfully"⟩] <:+
      (deployTenant envVpcFail "acme" none).state.progress :=
  deployTenant_vpc_failure_soft envVpcFail "acme" none "tok-1" "boom"
    rfl rfl rfl rfl rfl rfl (by decide) rfl

/-- C4 counterexample: with a throwing template run, the step log records
`vpc-template` with status `failed` (the claim says it is not recorded as a
failed step), and still the run ends `complete`/`completed` with a success
result. -/
theorem deployTenant_vpc_failure_recorded_failed_cex :
    (((deployTenant envVpcFail "acme" none).state.progress.map
        (fun p => (p.step, p.status))).drop 18) =
      [("vpc-template", "in_progress"), ("vpc-template", "failed"),
       ("complete", "completed")] ∧
    (deployTenant envVpcFail "acme" none).result.success = true :=
  ⟨rfl, rfl⟩

/-! ## C3 and C10 — the SI_API_TOKEN environment swap -/

def argsW : TemplateArgs :=
  ⟨"./src/si-templates/aws-standard-vpc.ts", "acme-vpc-u1",
    "./src/si-templates/aws-standard-vpc-prod-input.yaml", false⟩

def runOkW : TemplateArgs → Option String → Except String Unit :=
  fun _ _ => Except.ok ()

def runFailW : TemplateArgs → Option String → Except String Unit :=
  fun _ _ => Except.error "boom"

/-- C3 (amended): the template run call receives its credential scope from
the ambient process-wide SI_API_TOKEN variable, which the step sets to the
workspace token for the duration of the run; no credential is part of the
run call's explicit arguments (`TemplateArgs` carries none). -/
theorem vpcTemplateStep_ambient_credentials (env0 : Option String)
    (token : String) (args : TemplateArgs)
    (run : TemplateArgs → Option String → Except String Unit) :
    (vpcTemplateStep env0 token args run).2.1 = some token ∧
    (vpcTemplateStep env0 token args run).1 = run args (some token) :=
  ⟨rfl, rfl⟩

/-- C3 counterexample: during the template run the ambient SI_API_TOKEN
value is the workspace token — different from its value before the step —
so credential scoping is established by mutating ambient process-wide
state. -/
theorem vpcTemplateStep_mutates_ambient_cex :
    (vpcTemplateStep none "tok-1" argsW runOkW).2.1 = some "tok-1" ∧
    some "tok-1" ≠ (none : Option String) := by
  constructor
  · rfl
  · decide

/-- C10 (amended): after the vpc-template step the ambient SI_API_TOKEN
variable is restored to its prior value when that value was a non-empty
string, and deleted when it was unset — but a prior empty-string value is
deleted rather than re-set (JS truthiness in the `finally` block); the
restoration does not depend on the template run's outcome (in particular it
also happens when the run throws). -/
theorem vpcTemplateStep_env_restore (env0 : Option String) (token : String)
    (args : TemplateArgs)
    (run : TemplateArgs → Option String → Except String Unit) :
    (∀ t, env0 = some t → t ≠ "" →
        (vpcTemplateStep env0 token args run).2.2 = some t) ∧
    (env0 = none → (vpcTemplateStep env0 token args run).2.2 = none) ∧
    (env0 = some "" → (vpcTemplateStep env0 token args run).2.2 = none) ∧
    ∀ run2 : TemplateArgs → Option String → Except String Unit,
      (vpcTemplateStep env0 token args run2).2.2 =
        (vpcTemplateStep env0 token args run).2.2 := by
  refine ⟨?_, ?_, ?_, fun run2 => rfl⟩
  · intro t h ht
    subst h
    simp [vpcTemplateStep, ht]
  · intro h
    subst h
    rfl
  · intro h
    subst h
    rfl

/-- Witness for the amended C10: a non-empty prior value is restored even
though the template run throws. -/
theorem vpcTemplateStep_env_restore_witness :
    (vpcTemplateStep (some "orig") "tok-1" argsW runFailW).2.2 = some "orig" :=
  (vpcTemplateStep_env_restore (some "orig") "tok-1" argsW runFailW).1 "orig"
    rfl (by decide)

/-- C10 counterexample: a prior empty-string value of SI_API_TOKEN is not
re-set after the step — the variable is deleted instead, so the variable is
not restored to exactly its prior value. -/
theorem vpcTemplateStep_empty_not_restored_cex :
    (vpcTemplateStep (some "") "tok-1" argsW runFailW).2.2 = none ∧
    some "" ≠ (none : Option String) := by
  constructor
  · rfl
  · decide
